import Mathlib

/-! Shallow embedding of `src/blender-optimize.py` (function `optimize_model`).

The script is a linear batch procedure driven by a host 3D application
(Blender): it clears the scene, imports a GLB file, walks the scene objects
once (optimizing meshes, deleting lights, deleting helper-named objects),
prints statistics, and exports a compressed GLB.

Modelling choices:
* A scene is a `List Obj`; each object carries its Blender `type` string,
  its `name`, and mesh counters (`vertices`, `faces`).
* The host mesh kernel (`bmesh.ops.remove_doubles`, `dissolve_limit`,
  `unsubdivide`, `triangulate`) is opaque: a `Host` record of arbitrary
  functions on mesh data.  The float literals `0.001` and `0.1` that the
  script passes to the host are opaque tokens; they are modelled by their
  source text, carried unchanged to the host and into the trace.
* Every observable action (host operator call, object removal, print,
  import, export) is recorded as an `Event` in a trace, in program order.
* Python division raises `ZeroDivisionError` on a zero denominator; the
  reduction-percentage computations are therefore modelled with an explicit
  zero test that aborts the run (`Except.error`) before any further event.
-/

namespace BlenderOptimize

/-- Mesh datablock counters: `len(obj.data.vertices)` and
`len(obj.data.polygons)` / `len(bm.faces)`. -/
structure MeshData where
  vertices : Nat
  faces : Nat
  deriving Repr, DecidableEq

/-- A scene object: its Blender type string (`'MESH'`, `'LIGHT'`, ...),
its name, and its mesh data (meaningful only for meshes). -/
structure Obj where
  type : String
  name : String
  data : MeshData
  deriving Repr, DecidableEq

/-- The host mesh kernel: the four `bmesh.ops` operators the script calls.
Their behaviour is entirely the host application and is kept abstract.
`remove_doubles` receives the distance token, `dissolve_limit` the angle
token, `unsubdivide` the iteration count. -/
structure Host where
  remove_doubles : String → MeshData → MeshData
  dissolve_limit : String → MeshData → MeshData
  unsubdivide : Nat → MeshData → MeshData
  triangulate : MeshData → MeshData

/-- Line 16 of the source: the hardcoded import path. -/
def input_path : String := "/Users/quan/cursor/fellou_hero_try0/LOST_cut2_v5-transformed.glb"

/-- Line 99 of the source: the hardcoded export path. -/
def output_path : String := "/Users/quan/cursor/fellou_hero_try0/v5-optimized-blender.glb"

/-- One observable action of the script, in program order. -/
inductive Event where
  | printStart
  | clearScene
  | importGLB (filepath : String)
  | printOriginalStats (vertices faces : Nat)
  | printOptimizingMesh (name : String)
  | removeDoubles (name : String) (dist : String)
  | dissolveLimit (name : String) (angle_limit : String)
  | unsubdivide (name : String) (iterations : Nat)
  | triangulate (name : String)
  | shadeSmooth (name : String)
  | printMeshDone (name : String)
  | printRemoveLight (name : String)
  | printRemoveHelper (name : String)
  | removeObject (name : String)
  | printOptimizedStats (vertices faces : Nat)
  | printReduction (vertex_reduction face_reduction : ℚ)
  | exportGLB (filepath : String) (export_format : String)
      (export_animations export_lights export_cameras export_extras : Bool)
      (export_draco_mesh_compression_enable : Bool)
      (export_draco_mesh_compression_level : Nat)
  | printSaved (filepath : String)
  | printSuccess
  | printWarning
  deriving Repr, DecidableEq

/-- Python `str.lower()` on the characters of a name. -/
def lowerChars (s : String) : List Char := s.data.map Char.toLower

/-- Python substring containment `pat in s`, on character lists. -/
def listContains (pat : List Char) : List Char → Bool
  | [] => pat.isEmpty
  | c :: rest => pat.isPrefixOf (c :: rest) || listContains pat rest

/-- Line 76 of the source: `'Helper' in obj.name or 'helper' in obj.name.lower()`. -/
def isHelperName (name : String) : Bool :=
  listContains "Helper".data name.data || listContains "helper".data (lowerChars name)

set_option linter.unusedVariables false in
/-- The body of the scene loop (lines 31-79) for one object: the branch on
`obj.type == 'MESH'` / `elif obj.type == 'LIGHT'` / `elif` helper name.
Returns the events emitted for this object and the object as it remains in
the scene (`none` when it was removed). -/
def processObj (host : Host) (obj : Obj) : List Event × Option Obj :=
  if obj.type = "MESH" then
    let bm1 := host.remove_doubles "0.001" obj.data
    let bm2 := host.dissolve_limit "0.1" bm1
    let bm3 :=
      if bm2.faces > 1000 then
        let target_faces : ℚ := max 100 ((bm2.faces : ℚ) * (1 / 100))
        host.unsubdivide 3 bm2
      else bm2
    let bm4 := host.triangulate bm3
    ([Event.printOptimizingMesh obj.name,
      Event.removeDoubles obj.name "0.001",
      Event.dissolveLimit obj.name "0.1"]
      ++ (if bm2.faces > 1000 then [Event.unsubdivide obj.name 3] else [])
      ++ [Event.triangulate obj.name, Event.shadeSmooth obj.name,
          Event.printMeshDone obj.name],
     some { obj with data := bm4 })
  else if obj.type = "LIGHT" then
    ([Event.printRemoveLight obj.name, Event.removeObject obj.name], none)
  else if isHelperName obj.name then
    ([Event.printRemoveHelper obj.name, Event.removeObject obj.name], none)
  else ([], some obj)

/-- The scene loop over all objects, in scene order: the events of each
object in turn, and the objects still in the scene afterwards. -/
def processAll (host : Host) : List Obj → List Event × List Obj
  | [] => ([], [])
  | obj :: rest =>
    let r := processObj host obj
    let rs := processAll host rest
    (r.1 ++ rs.1, r.2.toList ++ rs.2)

/-- Scene-wide vertex total over mesh objects (lines 23-25 / 85-87). -/
def count_vertices (scene : List Obj) : Nat :=
  ((scene.filter (fun o => o.type == "MESH")).map (fun o => o.data.vertices)).sum

/-- Scene-wide face total over mesh objects (lines 23-26 / 85-88). -/
def count_faces (scene : List Obj) : Nat :=
  ((scene.filter (fun o => o.type == "MESH")).map (fun o => o.data.faces)).sum

/-- The export call of lines 100-109 with its literal keyword arguments. -/
def exportEvent : Event :=
  Event.exportGLB output_path "GLB" true false false false true 6

/-- The whole procedure `optimize_model`, from the scene-clear to the final
threshold message.  Its input is the scene as populated by the GLB import
(the host decides what the file contains) together with the host mesh
kernel; its output is the event trace and either the final scene or the
uncaught `ZeroDivisionError` from the reduction-percentage lines 93-94. -/
def optimize_model (host : Host) (importedScene : List Obj) :
    List Event × Except String (List Obj) :=
  let original_vertices := count_vertices importedScene
  let original_faces := count_faces importedScene
  let loopResult := processAll host importedScene
  let optimized_vertices := count_vertices loopResult.2
  let optimized_faces := count_faces loopResult.2
  let trace0 :=
    [Event.printStart, Event.clearScene, Event.importGLB input_path,
     Event.printOriginalStats original_vertices original_faces]
    ++ loopResult.1
    ++ [Event.printOptimizedStats optimized_vertices optimized_faces]
  if original_vertices = 0 then
    (trace0, Except.error "ZeroDivisionError")
  else if original_faces = 0 then
    (trace0, Except.error "ZeroDivisionError")
  else
    let vertex_reduction : ℚ :=
      ((original_vertices : ℚ) - (optimized_vertices : ℚ)) / (original_vertices : ℚ) * 100
    let face_reduction : ℚ :=
      ((original_faces : ℚ) - (optimized_faces : ℚ)) / (original_faces : ℚ) * 100
    (trace0
      ++ [Event.printReduction vertex_reduction face_reduction,
          exportEvent, Event.printSaved output_path,
          if optimized_vertices ≤ 120000 then Event.printSuccess else Event.printWarning],
     Except.ok loopResult.2)

/-- Discriminator for the export call in a trace. -/
def Event.isExport : Event → Bool
  | Event.exportGLB _ _ _ _ _ _ _ _ => true
  | _ => false

/-- Events that the scene loop (lines 31-79) can emit. -/
def isLoopEvent : Event → Bool
  | Event.printOptimizingMesh _ => true
  | Event.removeDoubles _ _ => true
  | Event.dissolveLimit _ _ => true
  | Event.unsubdivide _ _ => true
  | Event.triangulate _ => true
  | Event.shadeSmooth _ => true
  | Event.printMeshDone _ => true
  | Event.printRemoveLight _ => true
  | Event.printRemoveHelper _ => true
  | Event.removeObject _ => true
  | _ => false

/-- Variant of `processObj` with the dead `target_faces` computation of
line 53 removed; the rest is untouched.  This is the claimed refinement:
the program with the unused 1 percent target deleted. -/
def processObj_noTarget (host : Host) (obj : Obj) : List Event × Option Obj :=
  if obj.type = "MESH" then
    let bm1 := host.remove_doubles "0.001" obj.data
    let bm2 := host.dissolve_limit "0.1" bm1
    let bm3 :=
      if bm2.faces > 1000 then host.unsubdivide 3 bm2
      else bm2
    let bm4 := host.triangulate bm3
    ([Event.printOptimizingMesh obj.name,
      Event.removeDoubles obj.name "0.001",
      Event.dissolveLimit obj.name "0.1"]
      ++ (if bm2.faces > 1000 then [Event.unsubdivide obj.name 3] else [])
      ++ [Event.triangulate obj.name, Event.shadeSmooth obj.name,
          Event.printMeshDone obj.name],
     some { obj with data := bm4 })
  else if obj.type = "LIGHT" then
    ([Event.printRemoveLight obj.name, Event.removeObject obj.name], none)
  else if isHelperName obj.name then
    ([Event.printRemoveHelper obj.name, Event.removeObject obj.name], none)
  else ([], some obj)

/-- Scene loop of the `target_faces`-free program. -/
def processAll_noTarget (host : Host) : List Obj → List Event × List Obj
  | [] => ([], [])
  | obj :: rest =>
    let r := processObj_noTarget host obj
    let rs := processAll_noTarget host rest
    (r.1 ++ rs.1, r.2.toList ++ rs.2)

/-- The whole procedure of the `target_faces`-free program. -/
def optimize_model_noTarget (host : Host) (importedScene : List Obj) :
    List Event × Except String (List Obj) :=
  let original_vertices := count_vertices importedScene
  let original_faces := count_faces importedScene
  let loopResult := processAll_noTarget host importedScene
  let optimized_vertices := count_vertices loopResult.2
  let optimized_faces := count_faces loopResult.2
  let trace0 :=
    [Event.printStart, Event.clearScene, Event.importGLB input_path,
     Event.printOriginalStats original_vertices original_faces]
    ++ loopResult.1
    ++ [Event.printOptimizedStats optimized_vertices optimized_faces]
  if original_vertices = 0 then
    (trace0, Except.error "ZeroDivisionError")
  else if original_faces = 0 then
    (trace0, Except.error "ZeroDivisionError")
  else
    let vertex_reduction : ℚ :=
      ((original_vertices : ℚ) - (optimized_vertices : ℚ)) / (original_vertices : ℚ) * 100
    let face_reduction : ℚ :=
      ((original_faces : ℚ) - (optimized_faces : ℚ)) / (original_faces : ℚ) * 100
    (trace0
      ++ [Event.printReduction vertex_reduction face_reduction,
          exportEvent, Event.printSaved output_path,
          if optimized_vertices ≤ 120000 then Event.printSuccess else Event.printWarning],
     Except.ok loopResult.2)

/-- A concrete host whose mesh operators change nothing; used to
instantiate universally quantified statements on concrete scenes. -/
def trivialHost : Host where
  remove_doubles := fun _ m => m
  dissolve_limit := fun _ m => m
  unsubdivide := fun _ m => m
  triangulate := fun m => m

/-- A small mesh object: 8 vertices, 6 faces (at most 1000 faces). -/
def cubeMesh : Obj := { type := "MESH", name := "Cube", data := { vertices := 8, faces := 6 } }

/-- A large mesh object: more than 1000 faces. -/
def bigMesh : Obj := { type := "MESH", name := "Big", data := { vertices := 5000, faces := 2000 } }

/-- A mesh object whose name contains the substring Helper. -/
def helperMesh : Obj := { type := "MESH", name := "Helper", data := { vertices := 4, faces := 2 } }

/-- A light object. -/
def lampLight : Obj := { type := "LIGHT", name := "Lamp", data := { vertices := 0, faces := 0 } }

/-- A non-mesh, non-light object whose lowercased name contains helper. -/
def ctrlHelper : Obj := { type := "EMPTY", name := "Ctrl_HELPER", data := { vertices := 0, faces := 0 } }

/-- The scene after the scene loop: what the script counts as optimized
and what the export call serializes. -/
def finalScene (host : Host) (scene : List Obj) : List Obj := (processAll host scene).2

/-- The trace emitted up to and including the optimized-statistics print:
everything the script does before the reduction-percentage divisions. -/
def statsTrace (host : Host) (scene : List Obj) : List Event :=
  [Event.printStart, Event.clearScene, Event.importGLB input_path,
   Event.printOriginalStats (count_vertices scene) (count_faces scene)]
  ++ (processAll host scene).1
  ++ [Event.printOptimizedStats (count_vertices (finalScene host scene))
        (count_faces (finalScene host scene))]

/-- The reduction-percentage print of line 96, with the values the script
computes on lines 93-94. -/
def reductionEvent (host : Host) (scene : List Obj) : Event :=
  Event.printReduction
    (((count_vertices scene : ℚ) - (count_vertices (finalScene host scene) : ℚ))
      / (count_vertices scene : ℚ) * 100)
    (((count_faces scene : ℚ) - (count_faces (finalScene host scene) : ℚ))
      / (count_faces scene : ℚ) * 100)

/-- The advisory message of lines 113-116. -/
def finalMessage (host : Host) (scene : List Obj) : Event :=
  if count_vertices (finalScene host scene) ≤ 120000 then Event.printSuccess
  else Event.printWarning

/-! Structural lemmas about the embedding, shared by the claim theorems. -/

theorem processObj_events_loop (host : Host) (obj : Obj) :
    ∀ e ∈ (processObj host obj).1, isLoopEvent e = true := by
  have h : ((processObj host obj).1.all isLoopEvent) = true := by
    simp only [processObj]
    split_ifs <;> rfl
  exact fun e he => List.all_eq_true.1 h e he

theorem processAll_events_eq (host : Host) (scene : List Obj) :
    (processAll host scene).1 = (scene.map (fun o => (processObj host o).1)).flatten := by
  induction scene with
  | nil => rfl
  | cons obj rest ih =>
    simp only [processAll, List.map_cons, List.flatten_cons]
    rw [ih]

theorem processAll_events_loop (host : Host) (scene : List Obj) :
    ∀ e ∈ (processAll host scene).1, isLoopEvent e = true := by
  induction scene with
  | nil => intro e he; cases he
  | cons obj rest ih =>
    intro e he
    rcases List.mem_append.1 he with h | h
    · exact processObj_events_loop host obj e h
    · exact ih e h

theorem isExport_false_of_loop (e : Event) (h : isLoopEvent e = true) :
    e.isExport = false := by
  cases e <;> simp_all [isLoopEvent, Event.isExport]

theorem mem_statsTrace_cases (host : Host) (scene : List Obj) (e : Event)
    (h : e ∈ statsTrace host scene) :
    e = Event.printStart ∨ e = Event.clearScene ∨ e = Event.importGLB input_path ∨
    (∃ v f, e = Event.printOriginalStats v f) ∨
    (∃ v f, e = Event.printOptimizedStats v f) ∨ isLoopEvent e = true := by
  simp only [statsTrace] at h
  rcases List.mem_append.1 h with h1 | h1
  · rcases List.mem_append.1 h1 with h2 | h2
    · rcases List.mem_cons.1 h2 with rfl | h3
      · exact Or.inl rfl
      · rcases List.mem_cons.1 h3 with rfl | h4
        · exact Or.inr (Or.inl rfl)
        · rcases List.mem_cons.1 h4 with rfl | h5
          · exact Or.inr (Or.inr (Or.inl rfl))
          · rcases List.mem_cons.1 h5 with rfl | h6
            · exact Or.inr (Or.inr (Or.inr (Or.inl ⟨_, _, rfl⟩)))
            · cases h6
    · exact Or.inr (Or.inr (Or.inr (Or.inr (Or.inr (processAll_events_loop host scene e h2)))))
  · rcases List.mem_cons.1 h1 with rfl | h3
    · exact Or.inr (Or.inr (Or.inr (Or.inr (Or.inl ⟨_, _, rfl⟩))))
    · cases h3

theorem statsTrace_no_export (host : Host) (scene : List Obj) :
    ∀ e ∈ statsTrace host scene, e.isExport = false := by
  intro e he
  rcases mem_statsTrace_cases host scene e he with rfl | rfl | rfl | ⟨v, f, rfl⟩ | ⟨v, f, rfl⟩ | hl
  · rfl
  · rfl
  · rfl
  · rfl
  · rfl
  · exact isExport_false_of_loop e hl

theorem statsTrace_no_messages (host : Host) (scene : List Obj) :
    Event.printSuccess ∉ statsTrace host scene ∧
    Event.printWarning ∉ statsTrace host scene := by
  constructor <;> intro h <;>
    rcases mem_statsTrace_cases host scene _ h with h1 | h1 | h1 | ⟨v, f, h1⟩ | ⟨v, f, h1⟩ | h1 <;>
    simp [isLoopEvent] at h1

theorem optimize_model_error (host : Host) (scene : List Obj)
    (h : count_vertices scene = 0 ∨ count_faces scene = 0) :
    optimize_model host scene = (statsTrace host scene, Except.error "ZeroDivisionError") := by
  by_cases hv : count_vertices scene = 0
  · simp [optimize_model, statsTrace, finalScene, hv]
  · rcases h with h | h
    · exact absurd h hv
    · simp [optimize_model, statsTrace, finalScene, hv, h]

theorem optimize_model_ok (host : Host) (scene : List Obj)
    (hv : count_vertices scene ≠ 0) (hf : count_faces scene ≠ 0) :
    optimize_model host scene =
      (statsTrace host scene ++
        [reductionEvent host scene, exportEvent, Event.printSaved output_path,
         finalMessage host scene],
       Except.ok (finalScene host scene)) := by
  simp [optimize_model, statsTrace, finalScene, reductionEvent, finalMessage, hv, hf]

theorem optimize_model_trace_split (host : Host) (scene : List Obj) :
    (optimize_model host scene).1 = statsTrace host scene ∨
    (optimize_model host scene).1 = statsTrace host scene ++
      [reductionEvent host scene, exportEvent, Event.printSaved output_path,
       finalMessage host scene] := by
  by_cases hv : count_vertices scene = 0
  · exact Or.inl (by rw [optimize_model_error host scene (Or.inl hv)])
  · by_cases hf : count_faces scene = 0
    · exact Or.inl (by rw [optimize_model_error host scene (Or.inr hf)])
    · exact Or.inr (by rw [optimize_model_ok host scene hv hf])

theorem mem_tail_cases (host : Host) (scene : List Obj) (e : Event)
    (h : e ∈ [reductionEvent host scene, exportEvent, Event.printSaved output_path,
      finalMessage host scene]) :
    e = reductionEvent host scene ∨ e = exportEvent ∨ e = Event.printSaved output_path ∨
    e = Event.printSuccess ∨ e = Event.printWarning := by
  rcases List.mem_cons.1 h with rfl | h
  · exact Or.inl rfl
  · rcases List.mem_cons.1 h with rfl | h
    · exact Or.inr (Or.inl rfl)
    · rcases List.mem_cons.1 h with rfl | h
      · exact Or.inr (Or.inr (Or.inl rfl))
      · rcases List.mem_cons.1 h with rfl | h
        · unfold finalMessage
          split
          · exact Or.inr (Or.inr (Or.inr (Or.inl rfl)))
          · exact Or.inr (Or.inr (Or.inr (Or.inr rfl)))
        · cases h

theorem processObj_removes (host : Host) (obj : Obj)
    (h : obj.type = "LIGHT" ∨ (obj.type ≠ "MESH" ∧ isHelperName obj.name = true)) :
    Event.removeObject obj.name ∈ (processObj host obj).1 ∧
    (processObj host obj).2 = none := by
  rcases h with h | ⟨hm, hh⟩
  · have hm : obj.type ≠ "MESH" := by rw [h]; decide
    simp [processObj, hm, h]
  · by_cases hl : obj.type = "LIGHT"
    · simp [processObj, hm, hl]
    · simp [processObj, hm, hl, hh]

theorem processObj_some_shape (host : Host) (o0 o : Obj)
    (h : (processObj host o0).2 = some o) :
    o.type ≠ "LIGHT" ∧ (isHelperName o.name = true → o.type = "MESH") := by
  by_cases hm : o0.type = "MESH"
  · simp only [processObj, if_pos hm] at h
    have h2 := Option.some.inj h
    subst h2
    refine ⟨?_, fun _ => hm⟩
    show o0.type ≠ "LIGHT"
    rw [hm]; decide
  · by_cases hl : o0.type = "LIGHT"
    · simp [processObj, hm, hl] at h
    · by_cases hh : isHelperName o0.name = true
      · simp [processObj, hm, hl, hh] at h
      · simp only [processObj, if_neg hm, if_neg hl] at h
        rw [if_neg (by simpa using hh)] at h
        have h2 := Option.some.inj h
        subst h2
        exact ⟨hl, fun hcontra => absurd hcontra hh⟩

theorem mem_finalScene_src (host : Host) (scene : List Obj) (o : Obj)
    (h : o ∈ finalScene host scene) :
    ∃ o0 ∈ scene, (processObj host o0).2 = some o := by
  induction scene with
  | nil => cases h
  | cons obj rest ih =>
    rcases List.mem_append.1 h with h1 | h1
    · refine ⟨obj, List.mem_cons_self obj rest, ?_⟩
      rcases hro : (processObj host obj).2 with _ | o1
      · rw [hro] at h1; cases h1
      · rw [hro] at h1
        rcases List.mem_cons.1 h1 with rfl | h2
        · rfl
        · cases h2
    · rcases ih h1 with ⟨o0, ho0, hsome⟩
      exact ⟨o0, List.mem_cons_of_mem obj ho0, hsome⟩

/-! The claim theorems. -/

/-- Claim C1: if the scene after import has a zero scene-wide original
vertex total, or a zero scene-wide original face total, the
reduction-percentage computation of lines 93-94 divides by zero, so the
run aborts with the uncaught ZeroDivisionError and no export event is
ever emitted.  The totals are scene-wide sums over all mesh objects, as
the hypothesis states. -/
theorem zero_total_division_by_zero_blocks_export (host : Host) (scene : List Obj)
    (h : count_vertices scene = 0 ∨ count_faces scene = 0) :
    (optimize_model host scene).2 = Except.error "ZeroDivisionError" ∧
    ∀ e ∈ (optimize_model host scene).1, e.isExport = false := by
  rw [optimize_model_error host scene h]
  exact ⟨rfl, statsTrace_no_export host scene⟩

/-- Witness for C1: the empty imported scene has zero totals, the run
aborts with ZeroDivisionError, and nothing is exported. -/
theorem zero_total_division_by_zero_blocks_export_witness :
    (optimize_model trivialHost []).2 = Except.error "ZeroDivisionError" ∧
    ∀ e ∈ (optimize_model trivialHost []).1, e.isExport = false :=
  zero_total_division_by_zero_blocks_export trivialHost [] (Or.inl rfl)

theorem processObj_eq_noTarget : processObj = processObj_noTarget := by
  funext host obj
  simp only [processObj, processObj_noTarget]

theorem processAll_eq_noTarget : processAll = processAll_noTarget := by
  funext host scene
  induction scene with
  | nil => rfl
  | cons obj rest ih =>
    simp only [processAll, processAll_noTarget, processObj_eq_noTarget, ih]

/-- Claim C9: the `target_faces` computation on line 53 is dead code: the
program with that computation removed (`optimize_model_noTarget`, which
follows the claim word for word) is observably equal to the program as
written; unsubdivision always runs exactly 3 iterations regardless of the
target. -/
theorem target_faces_computation_is_dead_code :
    optimize_model = optimize_model_noTarget := by
  funext host scene
  simp only [optimize_model, optimize_model_noTarget, processAll_eq_noTarget]

/-- Claim C10: branch precedence of the scene loop.  A MESH object is
optimized and never removed, whatever its name; a LIGHT object is removed
by the light branch, whatever its name; the helper branch fires only for
objects that are neither meshes nor lights and have a helper name. -/
theorem branch_precedence (host : Host) (obj : Obj) :
    (obj.type = "MESH" → (processObj host obj).2 ≠ none ∧
        Event.removeObject obj.name ∉ (processObj host obj).1) ∧
    (obj.type = "LIGHT" →
        (processObj host obj).1 =
          [Event.printRemoveLight obj.name, Event.removeObject obj.name] ∧
        (processObj host obj).2 = none) ∧
    (Event.printRemoveHelper obj.name ∈ (processObj host obj).1 →
        obj.type ≠ "MESH" ∧ obj.type ≠ "LIGHT" ∧ isHelperName obj.name = true) := by
  refine ⟨?_, ?_, ?_⟩
  · intro h
    constructor
    · simp [processObj, h]
    · intro hmem
      simp only [processObj, if_pos h] at hmem
      rcases List.mem_append.1 hmem with h1 | h1
      · rcases List.mem_append.1 h1 with h2 | h2
        · simp at h2
        · split at h2 <;> simp at h2
      · simp at h1
  · intro h
    have hm : obj.type ≠ "MESH" := by rw [h]; decide
    exact ⟨by simp [processObj, hm, h], by simp [processObj, hm, h]⟩
  · intro hmem
    by_cases hm : obj.type = "MESH"
    · exfalso
      simp only [processObj, if_pos hm] at hmem
      rcases List.mem_append.1 hmem with h1 | h1
      · rcases List.mem_append.1 h1 with h2 | h2
        · simp at h2
        · split at h2 <;> simp at h2
      · simp at h1
    · by_cases hl : obj.type = "LIGHT"
      · exfalso
        simp only [processObj, if_neg hm, if_pos hl] at hmem
        simp at hmem
      · by_cases hh : isHelperName obj.name = true
        · exact ⟨hm, hl, hh⟩
        · exfalso
          simp only [processObj, if_neg hm, if_neg hl] at hmem
          rw [if_neg hh] at hmem
          simp at hmem

/-- Witness for C10: the mesh named Helper is kept in the scene and no
removal event is emitted for it. -/
theorem branch_precedence_witness :
    (processObj trivialHost helperMesh).2 ≠ none ∧
    Event.removeObject "Helper" ∉ (processObj trivialHost helperMesh).1 :=
  (branch_precedence trivialHost helperMesh).1 rfl

/-- Claim C8: for a mesh object, the unsubdivide operator runs exactly
when the mesh has more than 1000 faces at the time of the check, i.e.
after duplicate removal and limited dissolve; meshes at or below 1000
faces are still deduplicated, dissolved and triangulated. -/
theorem unsubdivide_only_above_threshold (host : Host) (obj : Obj)
    (h : obj.type = "MESH") :
    (Event.unsubdivide obj.name 3 ∈ (processObj host obj).1 ↔
      1000 < (host.dissolve_limit "0.1" (host.remove_doubles "0.001" obj.data)).faces) ∧
    Event.removeDoubles obj.name "0.001" ∈ (processObj host obj).1 ∧
    Event.dissolveLimit obj.name "0.1" ∈ (processObj host obj).1 ∧
    Event.triangulate obj.name ∈ (processObj host obj).1 := by
  simp only [processObj, if_pos h]
  split_ifs with hc
  · simp [hc]
  · simp [hc]

/-- Witness for C8: the 2000-face mesh is unsubdivided, and all deduplicate,
dissolve and triangulate operators run on it. -/
theorem unsubdivide_only_above_threshold_witness :
    (Event.unsubdivide "Big" 3 ∈ (processObj trivialHost bigMesh).1 ↔
      1000 <
        (trivialHost.dissolve_limit "0.1"
          (trivialHost.remove_doubles "0.001" bigMesh.data)).faces) ∧
    Event.removeDoubles "Big" "0.001" ∈ (processObj trivialHost bigMesh).1 ∧
    Event.dissolveLimit "Big" "0.1" ∈ (processObj trivialHost bigMesh).1 ∧
    Event.triangulate "Big" ∈ (processObj trivialHost bigMesh).1 :=
  unsubdivide_only_above_threshold trivialHost bigMesh rfl

/-- Claim C3 counterexample: the claim says every mesh object gets the
unsubdivision step, but a mesh with at most 1000 faces (here 6) is never
unsubdivided in its run. -/
theorem small_mesh_not_unsubdivided :
    cubeMesh.type = "MESH" ∧
    Event.unsubdivide "Cube" 3 ∉ (optimize_model trivialHost [cubeMesh]).1 := by
  exact ⟨rfl, by decide⟩

/-- Claim C3 as amended: for every mesh object the operators run in the
order duplicate removal (distance 0.001), limited dissolve (angle 0.1),
then unsubdivision with 3 iterations but only when the mesh has more than
1000 faces at that point, then triangulation and smooth shading; the mesh
data is threaded through the operators in that same order. -/
theorem mesh_operator_sequence (host : Host) (obj : Obj) (h : obj.type = "MESH") :
    (processObj host obj).1 =
      [Event.printOptimizingMesh obj.name,
       Event.removeDoubles obj.name "0.001",
       Event.dissolveLimit obj.name "0.1"]
      ++ (if 1000 < (host.dissolve_limit "0.1" (host.remove_doubles "0.001" obj.data)).faces
          then [Event.unsubdivide obj.name 3] else [])
      ++ [Event.triangulate obj.name, Event.shadeSmooth obj.name,
          Event.printMeshDone obj.name] ∧
    (processObj host obj).2 =
      some { obj with data :=
        (host.triangulate
          (if 1000 < (host.dissolve_limit "0.1" (host.remove_doubles "0.001" obj.data)).faces
           then host.unsubdivide 3 (host.dissolve_limit "0.1" (host.remove_doubles "0.001" obj.data))
           else host.dissolve_limit "0.1" (host.remove_doubles "0.001" obj.data))) } := by
  constructor <;> simp only [processObj, if_pos h]

/-- Witness for C3: on the 2000-face mesh the full operator sequence,
including the unsubdivision, is emitted in order. -/
theorem mesh_operator_sequence_witness :
    (processObj trivialHost bigMesh).1 =
      [Event.printOptimizingMesh "Big",
       Event.removeDoubles "Big" "0.001",
       Event.dissolveLimit "Big" "0.1"]
      ++ [Event.unsubdivide "Big" 3]
      ++ [Event.triangulate "Big", Event.shadeSmooth "Big",
          Event.printMeshDone "Big"] ∧
    (processObj trivialHost bigMesh).2 = some bigMesh :=
  mesh_operator_sequence trivialHost bigMesh rfl

/-- Claim C2 counterexample: a mesh object named Helper satisfies the
claim's removal condition (its name contains Helper), yet it survives to
the exported scene and no removal event is emitted for it. -/
theorem helper_named_mesh_survives :
    (optimize_model trivialHost [helperMesh]).2 = Except.ok [helperMesh] ∧
    Event.removeObject "Helper" ∉ (optimize_model trivialHost [helperMesh]).1 :=
  ⟨rfl, by decide⟩

/-- Claim C2 as amended: every light is removed before the export, and
every object that is neither a mesh nor a light and whose name contains
Helper or, case-insensitively, helper is removed before the export; a
mesh object is never removed by the loop, whatever its name, and the
exported scene contains no light and no helper-named non-mesh object. -/
theorem lights_and_nonmesh_helpers_removed (host : Host) (scene : List Obj) :
    (∀ obj ∈ scene,
        obj.type = "LIGHT" ∨ (obj.type ≠ "MESH" ∧ isHelperName obj.name = true) →
        ∃ t1 t2, (optimize_model host scene).1 = t1 ++ t2 ∧
          Event.removeObject obj.name ∈ t1 ∧ ∀ e ∈ t1, e.isExport = false) ∧
    (∀ o ∈ finalScene host scene,
        o.type ≠ "LIGHT" ∧ (isHelperName o.name = true → o.type = "MESH")) := by
  constructor
  · intro obj hmem hcond
    have hsplit : ∃ t2, (optimize_model host scene).1 = statsTrace host scene ++ t2 := by
      rcases optimize_model_trace_split host scene with h | h
      · exact ⟨[], by rw [h, List.append_nil]⟩
      · exact ⟨_, h⟩
    rcases hsplit with ⟨t2, ht⟩
    refine ⟨statsTrace host scene, t2, ht, ?_, statsTrace_no_export host scene⟩
    have hrm := (processObj_removes host obj hcond).1
    have hloop : Event.removeObject obj.name ∈ (processAll host scene).1 := by
      rw [processAll_events_eq]
      exact List.mem_flatten.2 ⟨(processObj host obj).1, List.mem_map_of_mem _ hmem, hrm⟩
    simp only [statsTrace]
    exact List.mem_append.2 (Or.inl (List.mem_append.2 (Or.inr hloop)))
  · intro o ho
    rcases mem_finalScene_src host scene o ho with ⟨o0, _, hsome⟩
    exact processObj_some_shape host o0 o hsome

/-- Witness for C2: the light named Lamp is removed, at a point of the
trace before any export. -/
theorem lights_and_nonmesh_helpers_removed_witness :
    ∃ t1 t2, (optimize_model trivialHost [lampLight, cubeMesh]).1 = t1 ++ t2 ∧
      Event.removeObject "Lamp" ∈ t1 ∧ ∀ e ∈ t1, e.isExport = false :=
  (lights_and_nonmesh_helpers_removed trivialHost [lampLight, cubeMesh]).1
    lampLight (List.mem_cons_self _ _) (Or.inl rfl)

/-- Claim C4: every export event of a run carries the hardcoded output
path, GLB format, animations enabled, lights, cameras and extras
excluded, and DRACO compression enabled at level 6; and whenever the
reduction computations do not divide by zero, that export event occurs. -/
theorem export_call_parameters (host : Host) (scene : List Obj) :
    (∀ e ∈ (optimize_model host scene).1, e.isExport = true →
        e = Event.exportGLB output_path "GLB" true false false false true 6) ∧
    (count_vertices scene ≠ 0 → count_faces scene ≠ 0 →
        Event.exportGLB output_path "GLB" true false false false true 6 ∈
          (optimize_model host scene).1) := by
  constructor
  · intro e he hex
    rcases optimize_model_trace_split host scene with h | h
    · rw [h] at he
      rw [statsTrace_no_export host scene e he] at hex
      cases hex
    · rw [h] at he
      rcases List.mem_append.1 he with h1 | h1
      · rw [statsTrace_no_export host scene e h1] at hex
        cases hex
      · rcases mem_tail_cases host scene e h1 with rfl | rfl | rfl | rfl | rfl
        · simp [reductionEvent, Event.isExport] at hex
        · rfl
        · simp [Event.isExport] at hex
        · simp [Event.isExport] at hex
        · simp [Event.isExport] at hex
  · intro hv hf
    rw [optimize_model_ok host scene hv hf]
    simp [exportEvent]

/-- Witness for C4: the export event with exactly these parameters occurs
in the run on the one-cube scene. -/
theorem export_call_parameters_witness :
    Event.exportGLB output_path "GLB" true false false false true 6 ∈
      (optimize_model trivialHost [cubeMesh]).1 :=
  (export_call_parameters trivialHost [cubeMesh]).2 (by decide) (by decide)

/-- Claim C5: on a completed run the success message appears iff the
post-optimization scene-wide vertex count is at most 120000 and the
warning appears iff it exceeds it; the message is the last event, after
the export; and the check changes nothing: the run still returns the
scene the loop computed. -/
theorem threshold_check_advisory (host : Host) (scene : List Obj)
    (hv : count_vertices scene ≠ 0) (hf : count_faces scene ≠ 0) :
    (Event.printSuccess ∈ (optimize_model host scene).1 ↔
        count_vertices (finalScene host scene) ≤ 120000) ∧
    (Event.printWarning ∈ (optimize_model host scene).1 ↔
        ¬count_vertices (finalScene host scene) ≤ 120000) ∧
    (∃ t1, (optimize_model host scene).1 =
        t1 ++ [exportEvent, Event.printSaved output_path, finalMessage host scene]) ∧
    (optimize_model host scene).2 = Except.ok (finalScene host scene) := by
  have hok := optimize_model_ok host scene hv hf
  by_cases hle : count_vertices (finalScene host scene) ≤ 120000
  · have hmsg : finalMessage host scene = Event.printSuccess := by
      simp [finalMessage, hle]
    rw [hok, hmsg]
    refine ⟨?_, ?_, ⟨statsTrace host scene ++ [reductionEvent host scene], by simp⟩, rfl⟩
    · simp [hle]
    · simp [hle, (statsTrace_no_messages host scene).2, reductionEvent, exportEvent]
  · have hmsg : finalMessage host scene = Event.printWarning := by
      simp [finalMessage, hle]
    rw [hok, hmsg]
    refine ⟨?_, ?_, ⟨statsTrace host scene ++ [reductionEvent host scene], by simp⟩, rfl⟩
    · simp [hle, (statsTrace_no_messages host scene).1, reductionEvent, exportEvent]
    · simp [hle]

/-- Witness for C5: the advisory check on the one-cube run. -/
theorem threshold_check_advisory_witness :
    (Event.printSuccess ∈ (optimize_model trivialHost [cubeMesh]).1 ↔
        count_vertices (finalScene trivialHost [cubeMesh]) ≤ 120000) ∧
    (Event.printWarning ∈ (optimize_model trivialHost [cubeMesh]).1 ↔
        ¬count_vertices (finalScene trivialHost [cubeMesh]) ≤ 120000) ∧
    (∃ t1, (optimize_model trivialHost [cubeMesh]).1 =
        t1 ++ [exportEvent, Event.printSaved output_path,
          finalMessage trivialHost [cubeMesh]]) ∧
    (optimize_model trivialHost [cubeMesh]).2 =
      Except.ok (finalScene trivialHost [cubeMesh]) :=
  threshold_check_advisory trivialHost [cubeMesh] (by decide) (by decide)

/-- Claim C6 counterexample: in the run on a light followed by a mesh, the
light deletion comes before any mesh operator, and the after-statistics
print comes before the export, contradicting the claimed order (all mesh
operators, then deletions, then export, then the statistics prints). -/
theorem deletion_and_stats_order_cx :
    ((optimize_model trivialHost [lampLight, cubeMesh]).1.indexOf
        (Event.removeObject "Lamp") <
      (optimize_model trivialHost [lampLight, cubeMesh]).1.indexOf
        (Event.removeDoubles "Cube" "0.001")) ∧
    Event.removeObject "Lamp" ∈ (optimize_model trivialHost [lampLight, cubeMesh]).1 ∧
    Event.removeDoubles "Cube" "0.001" ∈
      (optimize_model trivialHost [lampLight, cubeMesh]).1 ∧
    ((optimize_model trivialHost [lampLight, cubeMesh]).1.indexOf
        (Event.printOptimizedStats 8 6) <
      (optimize_model trivialHost [lampLight, cubeMesh]).1.indexOf exportEvent) ∧
    Event.printOptimizedStats 8 6 ∈ (optimize_model trivialHost [lampLight, cubeMesh]).1 ∧
    exportEvent ∈ (optimize_model trivialHost [lampLight, cubeMesh]).1 := by
  decide

/-- Claim C6 as amended: the observable flow is: start message, clear
scene, import GLB, print original statistics, then a single pass over the
scene objects in scene order interleaving per-mesh operator runs (each
with its own smooth-shading step) with light and helper deletions, then
print optimized statistics and reduction percentages, then export the
compressed GLB, then print the saved message and the threshold message. -/
theorem observable_flow (host : Host) (scene : List Obj)
    (hv : count_vertices scene ≠ 0) (hf : count_faces scene ≠ 0) :
    (optimize_model host scene).1 =
      [Event.printStart, Event.clearScene, Event.importGLB input_path,
       Event.printOriginalStats (count_vertices scene) (count_faces scene)]
      ++ (scene.map (fun o => (processObj host o).1)).flatten
      ++ [Event.printOptimizedStats (count_vertices (finalScene host scene))
            (count_faces (finalScene host scene)),
          reductionEvent host scene, exportEvent, Event.printSaved output_path,
          finalMessage host scene] := by
  rw [optimize_model_ok host scene hv hf]
  simp [statsTrace, processAll_events_eq, finalScene]

/-- Witness for C6: the flow decomposition on the one-cube run. -/
theorem observable_flow_witness :
    (optimize_model trivialHost [cubeMesh]).1 =
      [Event.printStart, Event.clearScene, Event.importGLB input_path,
       Event.printOriginalStats (count_vertices [cubeMesh]) (count_faces [cubeMesh])]
      ++ (([cubeMesh] : List Obj).map (fun o => (processObj trivialHost o).1)).flatten
      ++ [Event.printOptimizedStats (count_vertices (finalScene trivialHost [cubeMesh]))
            (count_faces (finalScene trivialHost [cubeMesh])),
          reductionEvent trivialHost [cubeMesh], exportEvent,
          Event.printSaved output_path, finalMessage trivialHost [cubeMesh]] :=
  observable_flow trivialHost [cubeMesh] (by decide) (by decide)

/-- Claim C7: the path given to the import call is always the input-path
literal and the path given to the export call is always the output-path
literal; the model of the procedure takes no input beyond the host
behaviour and the imported scene, so nothing can change which files are
read or written. -/
theorem hardcoded_paths (host : Host) (scene : List Obj) :
    (∀ p, Event.importGLB p ∈ (optimize_model host scene).1 → p = input_path) ∧
    (∀ p fmt a l c x d lv,
        Event.exportGLB p fmt a l c x d lv ∈ (optimize_model host scene).1 →
        p = output_path) := by
  have hst1 : ∀ q, Event.importGLB q ∈ statsTrace host scene → q = input_path := by
    intro q hq
    rcases mem_statsTrace_cases host scene _ hq with h | h | h | ⟨v, f, h⟩ | ⟨v, f, h⟩ | h
    · simp at h
    · simp at h
    · simp at h; exact h
    · simp at h
    · simp at h
    · simp [isLoopEvent] at h
  have hst2 : ∀ p fmt a l c x d lv,
      Event.exportGLB p fmt a l c x d lv ∉ statsTrace host scene := by
    intro p fmt a l c x d lv hq
    rcases mem_statsTrace_cases host scene _ hq with h | h | h | ⟨v, f, h⟩ | ⟨v, f, h⟩ | h
    · simp at h
    · simp at h
    · simp at h
    · simp at h
    · simp at h
    · simp [isLoopEvent] at h
  constructor
  · intro p hmem
    rcases optimize_model_trace_split host scene with ht | ht
    · rw [ht] at hmem
      exact hst1 p hmem
    · rw [ht] at hmem
      rcases List.mem_append.1 hmem with h1 | h1
      · exact hst1 p h1
      · rcases mem_tail_cases host scene _ h1 with h | h | h | h | h <;>
          simp [reductionEvent, exportEvent] at h
  · intro p fmt a l c x d lv hmem
    rcases optimize_model_trace_split host scene with ht | ht
    · rw [ht] at hmem
      exact absurd hmem (hst2 p fmt a l c x d lv)
    · rw [ht] at hmem
      rcases List.mem_append.1 hmem with h1 | h1
      · exact absurd h1 (hst2 p fmt a l c x d lv)
      · rcases mem_tail_cases host scene _ h1 with h | h | h | h | h
        · simp [reductionEvent] at h
        · simp [exportEvent] at h
          exact h.1
        · simp at h
        · simp at h
        · simp at h

/-- Witness for C7: the import path of the empty-scene run is the literal
from line 16 of the source. -/
theorem hardcoded_paths_witness :
    "/Users/quan/cursor/fellou_hero_try0/LOST_cut2_v5-transformed.glb" = input_path :=
  (hardcoded_paths trivialHost []).1 _ (by decide)

end BlenderOptimize
